import Mathlib

/-!
Shallow embedding of `phaseflow/octadecane.py`: the `Simulation` class, its
constructor, `update_element`, and `update_governing_form`.  The FEniCS
symbolic weak form is modelled pointwise: every field (pressure, velocity,
temperature, and the test functions) is represented by its value and its
gradient value at an arbitrary spatial point, and the governing form is the
real-valued integrand evaluated on those pointwise values.  UFL finite
elements are modelled by a small inductive type recording family, cell and
polynomial degree.
-/

noncomputable section

namespace Phaseflow

open Real Filter Topology

/-- Model of a UFL element description as built by `fenics.FiniteElement`,
`fenics.VectorElement` and `fenics.MixedElement`. -/
inductive UFLElement where
  | finiteElement (family : String) (cell : String) (degree : ℕ)
  | vectorElement (family : String) (cell : String) (degree : ℕ)
  | mixedElement (subElements : List UFLElement)

/-- Polynomial degree of a scalar or vector element (0 for a mixed element,
which has no single degree). -/
def UFLElement.degree : UFLElement → ℕ
  | .finiteElement _ _ deg => deg
  | .vectorElement _ _ deg => deg
  | .mixedElement _ => 0

/-- Pointwise data of one solution state `w = (p, u, T)` on the mixed space:
the values of pressure, velocity and temperature together with the spatial
gradients that the weak form consumes.  `gradU i j` is the derivative of the
velocity component `i` in the direction `j`. -/
structure PointState (d : ℕ) where
  p : ℝ
  u : Fin d → ℝ
  T : ℝ
  gradU : Fin d → Fin d → ℝ
  gradT : Fin d → ℝ

/-- Pointwise data of the test functions `(psi_p, psi_u, psi_T)` and their
gradients. -/
structure TestPoint (d : ℕ) where
  psi_p : ℝ
  psi_u : Fin d → ℝ
  gradPsi_u : Fin d → Fin d → ℝ
  psi_T : ℝ
  gradPsi_T : Fin d → ℝ

/-- The `Simulation` object of `octadecane.py`: the twelve constructor
parameters, the `semi_phasefield_mapping` attribute, and the attributes that
`update_element` / `update_governing_form` (re)bind.  The mesh cell stands in
for the externally supplied mesh; the governing form is stored as the
pointwise integrand over a current state, an old state and a test point. -/
structure Simulation (d : ℕ) where
  timestep_size : ℝ
  rayleigh_numer : ℝ
  prandtl_number : ℝ
  stefan_number : ℝ
  gravity : Fin d → ℝ
  liquid_viscosity : ℝ
  solid_viscosity : ℝ
  penalty_parameter : ℝ
  regularization_central_temperature : ℝ
  regularization_smoothing_parameter : ℝ
  pressure_element_degree : ℕ
  temperature_element_degree : ℕ
  semi_phasefield_mapping : Option (ℝ → ℝ)
  meshCell : String
  element : Option UFLElement
  governing_form : Option (PointState d → PointState d → TestPoint d → ℝ)

/-- Transcription of `Simulation.__init__`: every argument is stored in the
attribute of the same name, `semi_phasefield_mapping` is set to `None`, and no
validation of any kind is performed (the function is total).  The trailing
`cell` argument stands for the mesh supplied by the external base class. -/
def Simulation.init {d : ℕ}
    (timestep_size rayleigh_numer prandtl_number stefan_number : ℝ)
    (gravity : Fin d → ℝ)
    (liquid_viscosity solid_viscosity penalty_parameter
      regularization_central_temperature regularization_smoothing_parameter : ℝ)
    (pressure_element_degree temperature_element_degree : ℕ)
    (cell : String) : Simulation d :=
  { timestep_size := timestep_size
    rayleigh_numer := rayleigh_numer
    prandtl_number := prandtl_number
    stefan_number := stefan_number
    gravity := gravity
    liquid_viscosity := liquid_viscosity
    solid_viscosity := solid_viscosity
    penalty_parameter := penalty_parameter
    regularization_central_temperature := regularization_central_temperature
    regularization_smoothing_parameter := regularization_smoothing_parameter
    pressure_element_degree := pressure_element_degree
    temperature_element_degree := temperature_element_degree
    semi_phasefield_mapping := none
    meshCell := cell
    element := none
    governing_form := none }

/-- Transcription of `Simulation.update_element`: pressure element of degree
`pressure_element_degree`, velocity element of degree
`pressure_element_degree + 1`, temperature element of degree
`temperature_element_degree`, combined into one mixed element. -/
def Simulation.update_element {d : ℕ} (s : Simulation d) : Simulation d :=
  { s with element := some (UFLElement.mixedElement
      [UFLElement.finiteElement "P" s.meshCell s.pressure_element_degree,
       UFLElement.vectorElement "P" s.meshCell (s.pressure_element_degree + 1),
       UFLElement.finiteElement "P" s.meshCell s.temperature_element_degree]) }

/-- Dot product of two vectors, `fenics.dot` on rank-1 arguments. -/
def dotVec {d : ℕ} (x y : Fin d → ℝ) : ℝ := ∑ i, x i * y i

/-- Matrix-vector product, `fenics.dot` with a rank-2 first argument. -/
def matVec {d : ℕ} (M : Fin d → Fin d → ℝ) (x : Fin d → ℝ) : Fin d → ℝ :=
  fun i => ∑ j, M i j * x j

/-- Frobenius inner product of two matrices, `fenics.inner` on rank-2
arguments. -/
def innerMat {d : ℕ} (M N : Fin d → Fin d → ℝ) : ℝ := ∑ i, ∑ j, M i j * N i j

/-- Divergence of a vector field, computed from its gradient matrix. -/
def divergence {d : ℕ} (M : Fin d → Fin d → ℝ) : ℝ := ∑ i, M i i

/-- Symmetric part of a matrix, `fenics.sym`. -/
def symPart {d : ℕ} (M : Fin d → Fin d → ℝ) : Fin d → Fin d → ℝ :=
  fun i j => (M i j + M j i) / 2

/-- The constant `Re = fenics.Constant(1.)` of `update_governing_form`. -/
def Re : ℝ := 1

/-- The nested function `f_B(T) = T*Ra/(Pr*Re**2)*g` of
`update_governing_form`. -/
def f_B {d : ℕ} (s : Simulation d) (T : ℝ) : Fin d → ℝ :=
  fun i => T * s.rayleigh_numer / (s.prandtl_number * Re ^ 2) * s.gravity i

/-- Semi-phase-field mapping from temperature, the nested function `phi` of
`update_governing_form`: `phi(T) = 0.5*(1. + tanh((T_r - T)/r))`. -/
def phi (T_r r T : ℝ) : ℝ := 0.5 * (1 + Real.tanh ((T_r - T) / r))

/-- The nested function `mu(phi_of_T) = mu_L + (mu_S - mu_L)*phi_of_T` of
`update_governing_form`. -/
def mu (mu_L mu_S phi_of_T : ℝ) : ℝ := mu_L + (mu_S - mu_L) * phi_of_T

/-- The nested form `b(u, p) = -div(u)*p`, with the vector argument
represented by its gradient matrix. -/
def b {d : ℕ} (gradV : Fin d → Fin d → ℝ) (q : ℝ) : ℝ := -(divergence gradV) * q

/-- The nested form `D(u) = sym(grad(u))`, taking the gradient matrix. -/
def D {d : ℕ} (gradV : Fin d → Fin d → ℝ) : Fin d → Fin d → ℝ := symPart gradV

/-- The nested form `a(mu, u, v) = 2.*mu*inner(D(u), D(v))`, with the vector
arguments represented by their gradient matrices. -/
def a {d : ℕ} (mu_val : ℝ) (gradU gradV : Fin d → Fin d → ℝ) : ℝ :=
  2 * mu_val * innerMat (D gradU) (D gradV)

/-- The nested form `c(u, z, v) = dot(dot(grad(z), u), v)`, with `z`
represented by its gradient matrix. -/
def c {d : ℕ} (u : Fin d → ℝ) (gradZ : Fin d → Fin d → ℝ) (v : Fin d → ℝ) : ℝ :=
  dotVec (matVec gradZ u) v

/-- Pointwise integrand of `self.governing_form`, transcribed term by term
from the final expression of `update_governing_form` (the integration measure
`dx` is external). -/
def governingFormIntegrand {d : ℕ} (s : Simulation d)
    (w w_n : PointState d) (t : TestPoint d) : ℝ :=
  b w.gradU t.psi_p - t.psi_p * s.penalty_parameter * w.p
  + dotVec t.psi_u
      (fun i => 1 / s.timestep_size * (w.u i - w_n.u i) + f_B s w.T i)
  + c w.u w.gradU t.psi_u + b t.gradPsi_u w.p
  + a (mu s.liquid_viscosity s.solid_viscosity
        (phi s.regularization_central_temperature
          s.regularization_smoothing_parameter w.T)) w.gradU t.gradPsi_u
  + 1 / s.timestep_size * t.psi_T * (w.T - w_n.T - 1 / s.stefan_number *
      (phi s.regularization_central_temperature
          s.regularization_smoothing_parameter w.T
        - phi s.regularization_central_temperature
            s.regularization_smoothing_parameter w_n.T))
  + dotVec t.gradPsi_T
      (fun i => 1 / s.prandtl_number * w.gradT i - w.T * w.u i)

/-- Transcription of `Simulation.update_governing_form`: it rebinds
`semi_phasefield_mapping` to the tanh mapping `phi` and `governing_form` to
the integrand; no parameter attribute is written. -/
def Simulation.update_governing_form {d : ℕ} (s : Simulation d) : Simulation d :=
  { s with
    semi_phasefield_mapping := some (phi s.regularization_central_temperature
      s.regularization_smoothing_parameter)
    governing_form := some (governingFormIntegrand s) }

/-- Modelled from the spec: the external base simulation abstraction supplies
the mesh (here its cell description); it does not touch the parameter
attributes or `semi_phasefield_mapping`.  The base class
`phaseflow.simulation.Simulation` itself is not part of the sources. -/
def Simulation.supply_mesh {d : ℕ} (s : Simulation d) (cell : String) :
    Simulation d :=
  { s with meshCell := cell }

/-- The twelve simulation-parameter attributes set by the constructor,
collected for frame-condition statements. -/
structure SimParams (d : ℕ) where
  timestep_size : ℝ
  rayleigh_numer : ℝ
  prandtl_number : ℝ
  stefan_number : ℝ
  gravity : Fin d → ℝ
  liquid_viscosity : ℝ
  solid_viscosity : ℝ
  penalty_parameter : ℝ
  regularization_central_temperature : ℝ
  regularization_smoothing_parameter : ℝ
  pressure_element_degree : ℕ
  temperature_element_degree : ℕ

/-- Projection of a simulation object onto its twelve parameter
attributes. -/
def Simulation.params {d : ℕ} (s : Simulation d) : SimParams d :=
  { timestep_size := s.timestep_size
    rayleigh_numer := s.rayleigh_numer
    prandtl_number := s.prandtl_number
    stefan_number := s.stefan_number
    gravity := s.gravity
    liquid_viscosity := s.liquid_viscosity
    solid_viscosity := s.solid_viscosity
    penalty_parameter := s.penalty_parameter
    regularization_central_temperature := s.regularization_central_temperature
    regularization_smoothing_parameter := s.regularization_smoothing_parameter
    pressure_element_degree := s.pressure_element_degree
    temperature_element_degree := s.temperature_element_degree }

/-- Degrees of the sub-elements of the currently bound mixed element (empty
when no element is bound). -/
def elementSubDegrees {d : ℕ} (s : Simulation d) : List ℕ :=
  match s.element with
  | some (UFLElement.mixedElement subs) => subs.map UFLElement.degree
  | _ => []

/-- Object states reachable through the constructor, the externally supplied
mesh, and `update_element`, i.e. without `update_governing_form` ever having
been invoked. -/
inductive ReachedWithoutFormAssembly {d : ℕ} : Simulation d → Prop where
  | constructed (ts ra pr ste : ℝ) (g : Fin d → ℝ) (muL muS gam tr r : ℝ)
      (pdeg tdeg : ℕ) (cell : String) :
      ReachedWithoutFormAssembly
        (Simulation.init ts ra pr ste g muL muS gam tr r pdeg tdeg cell)
  | element_updated {s : Simulation d} :
      ReachedWithoutFormAssembly s →
      ReachedWithoutFormAssembly s.update_element
  | mesh_supplied {s : Simulation d} (cell : String) :
      ReachedWithoutFormAssembly s →
      ReachedWithoutFormAssembly (s.supply_mesh cell)

/-- A simulation object built with the default constructor arguments of
`octadecane.py` on a two-dimensional triangle mesh. -/
def defaultSim : Simulation 2 :=
  Simulation.init 1 1 1 1 ![0, -1] 1 1e8 1e-7 0 0.01 1 1 "triangle"

/-- A simulation object whose pressure and temperature element degrees
differ: pressure degree 1, temperature degree 2. -/
def mismatchedSim : Simulation 2 :=
  Simulation.init 1 1 1 1 ![0, -1] 1 1e8 1e-7 0 0.01 1 2 "triangle"

/-- The energy-conservation part of the integrand, written as the spec states
it: implicit-Euler time discretization with latent heat carried by the
difference of the phase indicator, plus diffusive and advective transport. -/
def energyIntegrand {d : ℕ} (s : Simulation d)
    (w w_n : PointState d) (t : TestPoint d) : ℝ :=
  1 / s.timestep_size * t.psi_T * (w.T - w_n.T - 1 / s.stefan_number *
      (phi s.regularization_central_temperature
          s.regularization_smoothing_parameter w.T
        - phi s.regularization_central_temperature
            s.regularization_smoothing_parameter w_n.T))
  + dotVec t.gradPsi_T
      (fun i => 1 / s.prandtl_number * w.gradT i - w.T * w.u i)

/-- The mass/momentum part of the integrand: every term of the governing form
that is weighted by `psi_p` or `psi_u`. -/
def massMomentumIntegrand {d : ℕ} (s : Simulation d)
    (w w_n : PointState d) (t : TestPoint d) : ℝ :=
  b w.gradU t.psi_p - t.psi_p * s.penalty_parameter * w.p
  + dotVec t.psi_u
      (fun i => 1 / s.timestep_size * (w.u i - w_n.u i) + f_B s w.T i)
  + c w.u w.gradU t.psi_u + b t.gradPsi_u w.p
  + a (mu s.liquid_viscosity s.solid_viscosity
        (phi s.regularization_central_temperature
          s.regularization_smoothing_parameter w.T)) w.gradU t.gradPsi_u

/-- The steady-state Stokes weak form as the spec states it:
`b(u, psi_p) - gamma*psi_p*p + b(psi_u, p) + a(mu(phi(T)), u, psi_u)
+ psi_u . f_B(T)`. -/
def steadyStokesIntegrand {d : ℕ} (s : Simulation d)
    (w : PointState d) (t : TestPoint d) : ℝ :=
  b w.gradU t.psi_p - s.penalty_parameter * t.psi_p * w.p
  + b t.gradPsi_u w.p
  + a (mu s.liquid_viscosity s.solid_viscosity
        (phi s.regularization_central_temperature
          s.regularization_smoothing_parameter w.T)) w.gradU t.gradPsi_u
  + dotVec t.psi_u (f_B s w.T)

/-- The time-derivative terms of the integrand: exactly those scaled by
`1/Delta_t`. -/
def timeDerivativeIntegrand {d : ℕ} (s : Simulation d)
    (w w_n : PointState d) (t : TestPoint d) : ℝ :=
  dotVec t.psi_u (fun i => 1 / s.timestep_size * (w.u i - w_n.u i))
  + 1 / s.timestep_size * t.psi_T * (w.T - w_n.T - 1 / s.stefan_number *
      (phi s.regularization_central_temperature
          s.regularization_smoothing_parameter w.T
        - phi s.regularization_central_temperature
            s.regularization_smoothing_parameter w_n.T))

/-- The convection term `c(u, u, psi_u)` of the integrand. -/
def convectionIntegrand {d : ℕ} (w : PointState d) (t : TestPoint d) : ℝ :=
  c w.u w.gradU t.psi_u

/-- The diffusive/advective energy-transport term of the integrand, the part
of the energy equation not scaled by `1/Delta_t`. -/
def energyTransportIntegrand {d : ℕ} (s : Simulation d)
    (w : PointState d) (t : TestPoint d) : ℝ :=
  dotVec t.gradPsi_T
    (fun i => 1 / s.prandtl_number * w.gradT i - w.T * w.u i)

/-- Splitting a pointwise sum out of a dot product. -/
theorem dotVec_add_right {d : ℕ} (x f g : Fin d → ℝ) :
    dotVec x (fun i => f i + g i) = dotVec x f + dotVec x g := by
  simp [dotVec, mul_add, Finset.sum_add_distrib]

/-- Algebraic rewriting of the hyperbolic tangent used to compute its limits
at infinity. -/
theorem tanh_eq_one_sub_two_div (x : ℝ) :
    Real.tanh x = 1 - 2 / (Real.exp (2 * x) + 1) := by
  rw [Real.tanh_eq_sinh_div_cosh, Real.sinh_eq, Real.cosh_eq, Real.exp_neg,
    two_mul, Real.exp_add]
  have h1 : (0:ℝ) < Real.exp x + (Real.exp x)⁻¹ := by positivity
  have h2 : (0:ℝ) < Real.exp x * Real.exp x + 1 := by positivity
  have h3 := Real.exp_ne_zero x
  field_simp
  ring

/-- The hyperbolic tangent tends to 1 at plus infinity. -/
theorem tendsto_tanh_atTop : Tendsto Real.tanh atTop (nhds 1) := by
  have h2x : Tendsto (fun x : ℝ => 2 * x) atTop atTop :=
    tendsto_id.const_mul_atTop two_pos
  have hexp : Tendsto (fun x : ℝ => Real.exp (2 * x)) atTop atTop :=
    Real.tendsto_exp_atTop.comp h2x
  have hdenom : Tendsto (fun x : ℝ => Real.exp (2 * x) + 1) atTop atTop :=
    tendsto_atTop_add_const_right atTop 1 hexp
  have hfrac : Tendsto (fun x : ℝ => 2 / (Real.exp (2 * x) + 1)) atTop
      (nhds 0) := Tendsto.div_atTop tendsto_const_nhds hdenom
  have hsub : Tendsto (fun x : ℝ => 1 - 2 / (Real.exp (2 * x) + 1)) atTop
      (nhds (1 - 0)) := tendsto_const_nhds.sub hfrac
  rw [sub_zero] at hsub
  exact hsub.congr fun x => (tanh_eq_one_sub_two_div x).symm

/-- The hyperbolic tangent tends to -1 at minus infinity. -/
theorem tendsto_tanh_atBot : Tendsto Real.tanh atBot (nhds (-1)) := by
  have h : Tendsto (fun x : ℝ => -Real.tanh (-x)) atBot (nhds (-1)) :=
    (tendsto_tanh_atTop.comp tendsto_neg_atBot_atTop).neg
  exact h.congr fun x => by rw [Real.tanh_neg, neg_neg]

/-- The phase indicator tends to 1 as the temperature tends to minus
infinity, for a positive smoothing parameter. -/
theorem tendsto_phi_atBot (T_r r : ℝ) (hr : 0 < r) :
    Tendsto (phi T_r r) atBot (nhds 1) := by
  have hneg : Tendsto (fun T : ℝ => T_r + -T) atBot atTop :=
    tendsto_atTop_add_const_left atBot T_r tendsto_neg_atBot_atTop
  have hsub : Tendsto (fun T : ℝ => T_r - T) atBot atTop :=
    hneg.congr fun T => (sub_eq_add_neg T_r T).symm
  have harg : Tendsto (fun T : ℝ => (T_r - T) / r) atBot atTop :=
    hsub.atTop_div_const hr
  have htanh : Tendsto (fun T : ℝ => Real.tanh ((T_r - T) / r)) atBot
      (nhds 1) := tendsto_tanh_atTop.comp harg
  have hall : Tendsto (fun T : ℝ => 0.5 * (1 + Real.tanh ((T_r - T) / r)))
      atBot (nhds (0.5 * (1 + 1))) := (htanh.const_add 1).const_mul 0.5
  have hval : (0.5 : ℝ) * (1 + 1) = 1 := by norm_num
  rw [hval] at hall
  exact hall

/-- The phase indicator tends to 0 as the temperature tends to plus infinity,
for a positive smoothing parameter. -/
theorem tendsto_phi_atTop (T_r r : ℝ) (hr : 0 < r) :
    Tendsto (phi T_r r) atTop (nhds 0) := by
  have hneg : Tendsto (fun T : ℝ => T_r + -T) atTop atBot :=
    tendsto_atBot_add_const_left atTop T_r tendsto_neg_atTop_atBot
  have hsub : Tendsto (fun T : ℝ => T_r - T) atTop atBot :=
    hneg.congr fun T => (sub_eq_add_neg T_r T).symm
  have harg : Tendsto (fun T : ℝ => (T_r - T) / r) atTop atBot :=
    hsub.atBot_div_const hr
  have htanh : Tendsto (fun T : ℝ => Real.tanh ((T_r - T) / r)) atTop
      (nhds (-1)) := tendsto_tanh_atBot.comp harg
  have hall : Tendsto (fun T : ℝ => 0.5 * (1 + Real.tanh ((T_r - T) / r)))
      atTop (nhds (0.5 * (1 + -1))) := (htanh.const_add 1).const_mul 0.5
  have hval : (0.5 : ℝ) * (1 + -1) = 0 := by norm_num
  rw [hval] at hall
  exact hall

/-- The phase indicator takes the value one half exactly at the
regularization center. -/
theorem phi_at_center (T_r r : ℝ) : phi T_r r T_r = 0.5 := by
  norm_num [phi, Real.tanh_zero]

/-- C1: for every parameter configuration and every pair of solution states,
the integrand assembled by `update_governing_form` splits into a mass/momentum
part and an energy-conservation part, and the energy part is exactly the
implicit-Euler discretization `(1/Delta_t)*psi_T*(T - T_n - (1/Ste)*(phi(T) -
phi(T_n)))` plus the diffusive/advective term `grad(psi_T) . ((1/Pr)*grad(T)
- T*u)`, with `phi` the semi-phase-field mapping. -/
theorem governing_form_energy_part {d : ℕ} (s : Simulation d)
    (w w_n : PointState d) (t : TestPoint d) :
    governingFormIntegrand s w w_n t =
      massMomentumIntegrand s w w_n t + energyIntegrand s w w_n t := by
  unfold governingFormIntegrand massMomentumIntegrand energyIntegrand
  ring

/-- C2: the phase-indicator mapping stored by `update_governing_form` is
`phi(T) = 0.5*(1 + tanh((T_r - T)/r))`; for a positive smoothing parameter it
tends to 1 as the temperature tends to minus infinity, tends to 0 as the
temperature tends to plus infinity, and equals 0.5 exactly at the
regularization center. -/
theorem phase_indicator_limits {d : ℕ} (s : Simulation d)
    (hr : 0 < s.regularization_smoothing_parameter) :
    (s.update_governing_form).semi_phasefield_mapping =
      some (phi s.regularization_central_temperature
        s.regularization_smoothing_parameter)
    ∧ Tendsto (phi s.regularization_central_temperature
        s.regularization_smoothing_parameter) atBot (nhds 1)
    ∧ Tendsto (phi s.regularization_central_temperature
        s.regularization_smoothing_parameter) atTop (nhds 0)
    ∧ phi s.regularization_central_temperature
        s.regularization_smoothing_parameter
        s.regularization_central_temperature = 0.5 :=
  ⟨rfl, tendsto_phi_atBot _ _ hr, tendsto_phi_atTop _ _ hr, phi_at_center _ _⟩

/-- Witness for C2 at the default constructor arguments, whose smoothing
parameter is 0.01. -/
theorem phase_indicator_limits_witness :
    0 < defaultSim.regularization_smoothing_parameter
    ∧ ((defaultSim.update_governing_form).semi_phasefield_mapping =
        some (phi defaultSim.regularization_central_temperature
          defaultSim.regularization_smoothing_parameter)
      ∧ Tendsto (phi defaultSim.regularization_central_temperature
          defaultSim.regularization_smoothing_parameter) atBot (nhds 1)
      ∧ Tendsto (phi defaultSim.regularization_central_temperature
          defaultSim.regularization_smoothing_parameter) atTop (nhds 0)
      ∧ phi defaultSim.regularization_central_temperature
          defaultSim.regularization_smoothing_parameter
          defaultSim.regularization_central_temperature = 0.5) :=
  ⟨by norm_num [defaultSim, Simulation.init],
    phase_indicator_limits defaultSim (by norm_num [defaultSim, Simulation.init])⟩

/-- C3: the effective-viscosity blend equals the liquid viscosity at phase
indicator 0 and the solid viscosity at phase indicator 1, and is
non-decreasing on the interval from 0 to 1 whenever the solid viscosity is at
least the liquid viscosity. -/
theorem mu_viscosity_blend (mu_L mu_S : ℝ) :
    mu mu_L mu_S 0 = mu_L ∧ mu mu_L mu_S 1 = mu_S
    ∧ (mu_L ≤ mu_S → MonotoneOn (mu mu_L mu_S) (Set.Icc (0:ℝ) 1)) := by
  refine ⟨by unfold mu; ring, by unfold mu; ring, fun h => ?_⟩
  intro x _ y _ hxy
  unfold mu
  have hmul := mul_le_mul_of_nonneg_left hxy (sub_nonneg.mpr h)
  linarith

/-- Witness for C3 with liquid viscosity 1 and solid viscosity 2. -/
theorem mu_viscosity_blend_witness :
    mu 1 2 0 = 1 ∧ mu 1 2 1 = 2 ∧ MonotoneOn (mu 1 2) (Set.Icc (0:ℝ) 1) :=
  ⟨(mu_viscosity_blend 1 2).1, (mu_viscosity_blend 1 2).2.1,
    (mu_viscosity_blend 1 2).2.2 (by norm_num)⟩

/-- C4: for every simulation object, `update_element` builds the mixed
element with a velocity sub-element of degree exactly
`pressure_element_degree + 1`, independent of every other constructor
argument. -/
theorem velocity_degree_is_pressure_succ {d : ℕ} (s : Simulation d) :
    (s.update_element).element = some (UFLElement.mixedElement
      [UFLElement.finiteElement "P" s.meshCell s.pressure_element_degree,
       UFLElement.vectorElement "P" s.meshCell (s.pressure_element_degree + 1),
       UFLElement.finiteElement "P" s.meshCell s.temperature_element_degree])
    ∧ (UFLElement.vectorElement "P" s.meshCell
        (s.pressure_element_degree + 1)).degree
      = s.pressure_element_degree + 1 :=
  ⟨rfl, rfl⟩

/-- C5: subtracting the time-derivative terms (those scaled by `1/Delta_t`)
and the convection term `c(u, u, psi_u)` and the remaining energy-transport
term from the assembled integrand leaves exactly the steady-state Stokes weak
form `b(u, psi_p) - gamma*psi_p*p + b(psi_u, p) + a(mu(phi(T)), u, psi_u) +
psi_u . f_B(T)` as its mass/momentum part. -/
theorem governing_form_stokes_decomposition {d : ℕ} (s : Simulation d)
    (w w_n : PointState d) (t : TestPoint d) :
    governingFormIntegrand s w w_n t
      - timeDerivativeIntegrand s w w_n t
      - convectionIntegrand w t
      - energyTransportIntegrand s w t
      = steadyStokesIntegrand s w t := by
  unfold governingFormIntegrand timeDerivativeIntegrand convectionIntegrand
    energyTransportIntegrand steadyStokesIntegrand
  rw [dotVec_add_right]
  ring

/-- C6: the buoyancy forcing built by `update_governing_form` is
`f_B(T) = T*Ra/(Pr*Re^2)*g`; it is homogeneous and additive (hence linear) in
the temperature and vanishes at zero temperature. -/
theorem f_B_buoyancy {d : ℕ} (s : Simulation d) :
    (∀ T i, f_B s T i =
        T * (s.rayleigh_numer / (s.prandtl_number * Re ^ 2)) * s.gravity i)
    ∧ (∀ k T i, f_B s (k * T) i = k * f_B s T i)
    ∧ (∀ T₁ T₂ i, f_B s (T₁ + T₂) i = f_B s T₁ i + f_B s T₂ i)
    ∧ (∀ i, f_B s 0 i = 0) :=
  ⟨fun T i => by unfold f_B; ring, fun k T i => by unfold f_B; ring,
    fun T₁ T₂ i => by unfold f_B; ring, fun i => by unfold f_B; ring⟩

/-- C7 counterexample: with pressure element degree 1 and temperature element
degree 2, the mixed element built by `update_element` has sub-element degrees
1, 2, 2, so the temperature sub-element degree (2) differs from the pressure
sub-element degree (1): the temperature degree is not tied to the pressure
degree. -/
theorem temperature_degree_counterexample :
    elementSubDegrees mismatchedSim.update_element = [1, 2, 2]
    ∧ mismatchedSim.pressure_element_degree = 1
    ∧ mismatchedSim.temperature_element_degree = 2
    ∧ (elementSubDegrees mismatchedSim.update_element).getD 2 0
      ≠ (elementSubDegrees mismatchedSim.update_element).getD 0 0 :=
  ⟨rfl, rfl, rfl, by decide⟩

/-- C7 amended: `update_element` builds pressure at the configured pressure
degree, velocity one degree higher, and temperature at the independently
configured temperature degree; the temperature degree equals the pressure
degree only when the two constructor arguments coincide (as with the
defaults). -/
theorem element_sub_degrees_spec {d : ℕ} (s : Simulation d) :
    elementSubDegrees s.update_element =
      [s.pressure_element_degree, s.pressure_element_degree + 1,
       s.temperature_element_degree] := rfl

/-- C8: the constructor is total (construction always succeeds, with no
validation) and stores every argument unchanged, including out-of-range
physical values such as a zero liquid viscosity; `semi_phasefield_mapping`
starts as `None`. -/
theorem init_stores_arguments {d : ℕ}
    (ts ra pr ste : ℝ) (g : Fin d → ℝ) (muL muS gam tr r : ℝ)
    (pdeg tdeg : ℕ) (cell : String) :
    (Simulation.init ts ra pr ste g muL muS gam tr r pdeg tdeg cell).timestep_size = ts
    ∧ (Simulation.init ts ra pr ste g muL muS gam tr r pdeg tdeg cell).rayleigh_numer = ra
    ∧ (Simulation.init ts ra pr ste g muL muS gam tr r pdeg tdeg cell).prandtl_number = pr
    ∧ (Simulation.init ts ra pr ste g muL muS gam tr r pdeg tdeg cell).stefan_number = ste
    ∧ (Simulation.init ts ra pr ste g muL muS gam tr r pdeg tdeg cell).gravity = g
    ∧ (Simulation.init ts ra pr ste g muL muS gam tr r pdeg tdeg cell).liquid_viscosity = muL
    ∧ (Simulation.init ts ra pr ste g muL muS gam tr r pdeg tdeg cell).solid_viscosity = muS
    ∧ (Simulation.init ts ra pr ste g muL muS gam tr r pdeg tdeg cell).penalty_parameter = gam
    ∧ (Simulation.init ts ra pr ste g muL muS gam tr r pdeg tdeg cell).regularization_central_temperature = tr
    ∧ (Simulation.init ts ra pr ste g muL muS gam tr r pdeg tdeg cell).regularization_smoothing_parameter = r
    ∧ (Simulation.init ts ra pr ste g muL muS gam tr r pdeg tdeg cell).pressure_element_degree = pdeg
    ∧ (Simulation.init ts ra pr ste g muL muS gam tr r pdeg tdeg cell).temperature_element_degree = tdeg
    ∧ (Simulation.init ts ra pr ste g muL muS gam tr r pdeg tdeg cell).semi_phasefield_mapping = none :=
  ⟨rfl, rfl, rfl, rfl, rfl, rfl, rfl, rfl, rfl, rfl, rfl, rfl, rfl⟩

/-- C9: both `update_element` and `update_governing_form` leave all twelve
simulation-parameter attributes unchanged. -/
theorem params_frame {d : ℕ} (s : Simulation d) :
    (s.update_element).params = s.params
    ∧ (s.update_governing_form).params = s.params :=
  ⟨rfl, rfl⟩

/-- C10: in every object state reachable without `update_governing_form`
having been invoked, `semi_phasefield_mapping` is `None`; invoking
`update_governing_form` is what rebinds it to the tanh-based phase
indicator. -/
theorem semi_phasefield_none_before_assembly {d : ℕ} {s : Simulation d}
    (h : ReachedWithoutFormAssembly s) :
    s.semi_phasefield_mapping = none
    ∧ (s.update_governing_form).semi_phasefield_mapping =
        some (phi s.regularization_central_temperature
          s.regularization_smoothing_parameter) := by
  refine ⟨?_, rfl⟩
  induction h with
  | constructed ts ra pr ste g muL muS gam tr r pdeg tdeg cell => rfl
  | element_updated _ ih => exact ih
  | mesh_supplied cell _ ih => exact ih

/-- Witness for C10 at the freshly constructed default simulation object. -/
theorem semi_phasefield_none_before_assembly_witness :
    defaultSim.semi_phasefield_mapping = none
    ∧ (defaultSim.update_governing_form).semi_phasefield_mapping =
        some (phi defaultSim.regularization_central_temperature
          defaultSim.regularization_smoothing_parameter) :=
  semi_phasefield_none_before_assembly
    (ReachedWithoutFormAssembly.constructed
      1 1 1 1 ![0, -1] 1 1e8 1e-7 0 0.01 1 1 "triangle")

end Phaseflow
